import Mathlib

/-!
Verification of the lid-inspector watcher programs (`watcher_pi.py` and
`watcher_ui.py`): a folder watcher that classifies images through an external
chat-completion service and drives counters, a GPIO output and a Modbus
register pair from the verdict.

Python strings are embedded as Lean `String`s; Python string methods that the
claims depend on (`upper`, `lower`, `startswith`, `endswith`, `strip`, string
comparison) are modelled on the underlying character lists, matching Python's
code-point semantics.  External effects (directory listings, file reads,
chat-completion calls, clock and file-stat samples) are passed in as explicit
oracle arguments; raised Python exceptions are `Except.error` values.
-/

/-- Python code-point comparison `a < b` on character lists. -/
def strLtb : List Char → List Char → Bool
  | [], [] => false
  | [], _ :: _ => true
  | _ :: _, [] => false
  | a :: as, b :: bs =>
      if a.toNat < b.toNat then true
      else if b.toNat < a.toNat then false
      else strLtb as bs

/-- Python `a <= b` on character lists. -/
def strLeb (a b : List Char) : Bool := !(strLtb b a)

/-- Python string order `a <= b`, as used by `sorted`. -/
def pyLe (a b : String) : Prop := strLeb a.data b.data = true

instance : DecidableRel pyLe := fun _ _ => instDecidableEqBool _ _

theorem strLtb_irrefl : ∀ l, strLtb l l = false := by
  intro l
  induction l with
  | nil => rfl
  | cons a as ih => simp [strLtb, Nat.lt_irrefl, ih]

theorem strLtb_asymm : ∀ a b, strLtb a b = true → strLtb b a = false := by
  intro a
  induction a with
  | nil =>
    intro b h
    cases b with
    | nil => simp [strLtb] at h
    | cons x xs => simp [strLtb]
  | cons c cs ih =>
    intro b h
    cases b with
    | nil => simp [strLtb] at h
    | cons d ds =>
      simp only [strLtb] at h ⊢
      rcases Nat.lt_trichotomy c.toNat d.toNat with hlt | heq | hgt
      · simp [hlt, Nat.lt_asymm hlt]
      · simp [heq, Nat.lt_irrefl] at h ⊢
        exact ih ds h
      · simp [hgt, Nat.lt_asymm hgt] at h

theorem strLtb_total : ∀ a b, strLtb a b = true ∨ strLtb b a = true ∨ a = b := by
  intro a
  induction a with
  | nil =>
    intro b
    cases b with
    | nil => right; right; rfl
    | cons x xs => left; simp [strLtb]
  | cons c cs ih =>
    intro b
    cases b with
    | nil => right; left; simp [strLtb]
    | cons d ds =>
      rcases Nat.lt_trichotomy c.toNat d.toNat with hlt | heq | hgt
      · left; simp [strLtb, hlt]
      · have hcd : c = d := Char.ext (UInt32.ext heq)
        subst hcd
        rcases ih ds with h | h | h
        · left; simp [strLtb, h]
        · right; left; simp [strLtb, h]
        · right; right; rw [h]
      · right; left; simp [strLtb, hgt]

theorem strLtb_trans :
    ∀ a b c, strLtb a b = true → strLtb b c = true → strLtb a c = true := by
  intro a
  induction a with
  | nil =>
    intro b c hab hbc
    cases b with
    | nil => simp [strLtb] at hab
    | cons x xs =>
      cases c with
      | nil => simp [strLtb] at hbc
      | cons y ys => simp [strLtb]
  | cons p ps ih =>
    intro b c hab hbc
    cases b with
    | nil => simp [strLtb] at hab
    | cons q qs =>
      cases c with
      | nil => simp [strLtb] at hbc
      | cons r rs =>
        simp only [strLtb] at hab hbc ⊢
        rcases Nat.lt_trichotomy p.toNat q.toNat with h1 | h1 | h1 <;>
          rcases Nat.lt_trichotomy q.toNat r.toNat with h2 | h2 | h2
        · simp [Nat.lt_trans h1 h2]
        · simp [h2 ▸ h1]
        · simp [Nat.lt_asymm h2, h2] at hbc
        · simp [h1 ▸ h2]
        · simp [h1, Nat.lt_irrefl] at hab
          simp [h2, Nat.lt_irrefl] at hbc
          simp [h1.trans h2, Nat.lt_irrefl]
          exact ih qs rs hab hbc
        · simp [Nat.lt_asymm h2, h2] at hbc
        · simp [Nat.lt_asymm h1, h1] at hab
        · simp [Nat.lt_asymm h1, h1] at hab
        · simp [Nat.lt_asymm h1, h1] at hab

instance : IsTotal String pyLe := by
  constructor
  intro a b
  unfold pyLe strLeb
  rcases strLtb_total a.data b.data with h | h | h
  · left; simp [strLtb_asymm _ _ h]
  · right; simp [strLtb_asymm _ _ h]
  · left; rw [h]; simp [strLtb_irrefl]

instance : IsTrans String pyLe := by
  constructor
  intro a b c hab hbc
  unfold pyLe strLeb at *
  by_contra hac
  have hca : strLtb c.data a.data = true := by
    revert hac
    cases strLtb c.data a.data <;> simp
  rcases strLtb_total a.data b.data with h | h | h
  · have hcb : strLtb c.data b.data = true := strLtb_trans _ _ _ hca h
    simp [hcb] at hbc
  · simp [h] at hab
  · rw [h] at hca
    simp [hca] at hbc

/-- Python `s.upper()` (ASCII case mapping, which covers every string the
program compares). -/
def pyUpper (s : String) : String := ⟨s.data.map Char.toUpper⟩

/-- Python `s.lower()`. -/
def pyLower (s : String) : String := ⟨s.data.map Char.toLower⟩

/-- Python `s.startswith(pat)`. -/
def pyStartswith (s pat : String) : Bool := pat.data.isPrefixOf s.data

/-- Python `s.endswith(pat)`. -/
def pyEndswith (s pat : String) : Bool := pat.data.isSuffixOf s.data

/-- Python `s.strip()`. -/
def pyStrip (s : String) : String :=
  ⟨((s.data.dropWhile Char.isWhitespace).reverse.dropWhile Char.isWhitespace).reverse⟩

/-- Stem of `os.path.splitext(name)`: the name up to its last dot, except that
a lone leading dot is kept with the stem. -/
def splitextStem (name : String) : String :=
  let ds := name.data
  let revAfterDot := ds.reverse.takeWhile (fun c => c != '.')
  if revAfterDot.length = ds.length then name
  else if ds.length - revAfterDot.length - 1 = 0 then name
  else ⟨ds.take (ds.length - revAfterDot.length - 1)⟩

namespace WatcherPi

/-- `watcher_pi.list_images`: directory entries whose lowercased name ends in
`.jpg` or `.jpeg`, in Python `sorted` order. -/
def list_images (dir : List String) : List String :=
  List.insertionSort pyLe
    (dir.filter fun f => pyEndswith (pyLower f) ".jpg" || pyEndswith (pyLower f) ".jpeg")

/-- `watcher_pi.classify_image`: reads the file (a read failure raises out of
the function), then makes exactly one chat-completion call and returns the
stripped reply.  `api n` is the reply to the `n`-th call of the session; the
second component counts the calls made. -/
def classify_image (fileRead : Except String String)
    (api : Nat → Except String String) : Except String String × Nat :=
  match fileRead with
  | .error e => (.error e, 0)
  | .ok _data =>
      match api 0 with
      | .error e => (.error e, 1)
      | .ok reply => (.ok (pyStrip reply), 1)

/-- The `for img in list_images()` body of `watcher_pi.main`: images already in
`processed` are skipped; otherwise the image is classified inside a
`try`/`except` (so the outcome, error or not, is only printed) and the name is
added to `processed`.  Returns the classified `(name, outcome)` pairs in order
and the updated processed set. -/
def main_loop (imgs : List String) (processed : List String)
    (classify : String → Except String String) :
    List (String × Except String String) × List String :=
  match imgs with
  | [] => ([], processed)
  | img :: rest =>
      if img ∈ processed then main_loop rest processed classify
      else
        let r := classify img
        let next := main_loop rest (processed ++ [img]) classify
        ((img, r) :: next.1, next.2)

/-- One cycle of `watcher_pi.main`'s `while True` loop.  The directory listing
happens outside any `try`, so a listing failure propagates out of the loop. -/
def main_cycle (processed : List String) (listing : Except String (List String))
    (classify : String → Except String String) :
    Except String (List (String × Except String String) × List String) :=
  match listing with
  | .error e => .error e
  | .ok dir => .ok (main_loop (list_images dir) processed classify)

end WatcherPi

namespace WatcherUi

/-- Python exceptions that `watcher_ui.classify_image` can raise: the
`UnboundLocalError` for a local read before assignment, and errors raised by
the chat-completion call. -/
inductive PyErr where
  | unboundLocal (name : String)
  | apiError (msg : String)
deriving DecidableEq, Repr

/-- The message text of a raised exception, as interpolated by `f"Error: {e}"`. -/
def pyErrMsg : PyErr → String
  | .unboundLocal n => "local variable " ++ n ++ " referenced before assignment"
  | .apiError m => m

/-- The `LEVEL_GUIDANCE` dict, keyed 1..5.  The guidance prose is opaque
external configuration (no claim depends on its wording), so each value is
abbreviated to a distinct marker string. -/
def LEVEL_GUIDANCE (n : Nat) : Option String :=
  match n with
  | 1 => some "guidance level 1"
  | 2 => some "guidance level 2"
  | 3 => some "guidance level 3"
  | 4 => some "guidance level 4"
  | 5 => some "guidance level 5"
  | _ => none

/-- The `REFERENCE_EXAMPLES` dict of `watcher_ui.py`, as (url, text) pairs. -/
def REFERENCE_EXAMPLES : List (String × String) :=
  [("https://i.imgur.com/xXbGo0g.jpeg",
    "ACCEPT - Clean IML sticker, clear and centered branding."),
   ("https://i.imgur.com/NDmSVPz.jpeg",
    "REJECT - White streaks are simply reflections, not defects."),
   ("https://i.imgur.com/12zH9va.jpeg",
    "ACCEPT - Shine is due to lighting reflection, not a defect.")]

/-- The long inspection system prompt built in the `else` branch.  Its prose is
opaque external configuration; the model keeps what varies: the strictness
level and the chosen `focus` text interpolated into it. -/
def systemPromptText (sensitivity : Nat) (focus : String) : String :=
  "inspection system prompt, strictness " ++ toString sensitivity ++ ": " ++ focus

/-- `watcher_ui.classify_image path sensitivity no_brand_mode`.

The file read is an oracle (`.error` = the read raised, which the function
catches and turns into an `"Error: ..."` RETURN VALUE, not an exception).
`system_prompt` is a Python local assigned only in the `no_brand_mode = False`
branch; referencing it while unassigned raises `UnboundLocalError` before the
chat-completion service is contacted.  `api n` is the reply to the `n`-th
chat-completion call; the second component counts the calls made. -/
def classify_image (fileRead : Except String String) (sensitivity : Nat)
    (no_brand_mode : Bool) (api : Nat → Except String String) :
    Except PyErr String × Nat :=
  match fileRead with
  | .error e => (.ok ("Error: Unable to read image: " ++ e), 0)
  | .ok data =>
      let level_text := (LEVEL_GUIDANCE sensitivity).getD ((LEVEL_GUIDANCE 3).getD "")
      let focus := if no_brand_mode then "no-brand common sense focus" else level_text
      let system_prompt : Option String :=
        if no_brand_mode then none else some (systemPromptText sensitivity focus)
      match system_prompt with
      | none => (.error (.unboundLocal "system_prompt"), 0)
      | some sp =>
          let _messages : List (String × String) :=
            ("system", sp) ::
              (if no_brand_mode then [] else
                REFERENCE_EXAMPLES.map fun p => ("user", p.2 ++ " Image: " ++ p.1)) ++
              [("user", "Now evaluate this image: " ++ data)]
          match api 0 with
          | .error e => (.error (.apiError e), 1)
          | .ok reply => (.ok (pyStrip reply), 1)

/-- `watcher_ui.list_images`: like the pi variant but also accepting `.png`. -/
def list_images (dir : List String) : List String :=
  List.insertionSort pyLe
    (dir.filter fun f =>
      pyEndswith (pyLower f) ".jpg" || pyEndswith (pyLower f) ".jpeg" ||
        pyEndswith (pyLower f) ".png")

/-- Observable state of `LidInspectorApp` plus the hardware it drives:
the two Modbus discrete-input bits (`modbus = (bit0, bit1)`, accept/reject),
the GPIO `accept_output` pin, the two counters, the result label, the image
list and index, the `seen` set, the `analyzing` flag, the strictness and
no-brand controls, and the result files written to the results folder. -/
structure UiState where
  images : List String
  idx : Nat
  seen : List String
  analyzing : Bool
  accept_count : Nat
  reject_count : Nat
  sensitivity : Nat
  no_brand : Bool
  accept_output : Bool
  modbus : Bool × Bool
  result_text : String
  result_fg : String
  results : List (String × String)
deriving DecidableEq, Repr

/-- State at construction: counters zero, Modbus datastore `[0, 0]`, GPIO pin
initialised low, sensitivity 2 ("Relaxed"), no-brand off. -/
def initState : UiState where
  images := []
  idx := 0
  seen := []
  analyzing := false
  accept_count := 0
  reject_count := 0
  sensitivity := 2
  no_brand := false
  accept_output := false
  modbus := (false, false)
  result_text := ""
  result_fg := "black"
  results := []

/-- File-stat operations performed by `is_file_stable`, in order, with sleep
durations in seconds. -/
inductive FsOp where
  | sleep (seconds : ℚ)
  | getsize
  | getmtime
deriving DecidableEq, Repr

/-- `watcher_ui.is_file_stable path wait_time`: sleeps `wait_time`, samples the
size, sleeps a fixed 0.5 s, re-samples the size and the mtime, and returns
true iff the size is unchanged and `now - mtime > wait_time`; a
`FileNotFoundError` from any stat (`none` oracle value) yields `False` instead
of propagating.  Returns the result together with the operation trace. -/
def is_file_stable (size new_size : Option Nat) (mtime : Option ℚ)
    (now wait_time : ℚ) : Bool × List FsOp :=
  match size with
  | none => (false, [.sleep wait_time, .getsize])
  | some s =>
      match new_size with
      | none => (false, [.sleep wait_time, .getsize, .sleep (1/2), .getsize])
      | some ns =>
          match mtime with
          | none => (false, [.sleep wait_time, .getsize, .sleep (1/2), .getsize, .getmtime])
          | some mt =>
              (decide (s = ns) && decide (now - mt > wait_time),
               [.sleep wait_time, .getsize, .sleep (1/2), .getsize, .getmtime])

/-- First half of `LidInspectorApp.analyze`, up to the classification call:
sets the `analyzing` flag, shows "Analyzing...", writes `[0, 0]` to the Modbus
datastore and drives the GPIO pin low. -/
def analyzePre (st : UiState) : UiState :=
  { st with analyzing := true, result_fg := "orange", result_text := "Analyzing...",
            modbus := (false, false), accept_output := false }

/-- Second half of `LidInspectorApp.analyze`: on a returned verdict string,
sets the Modbus bits from `verdict.upper().startswith`, colours and shows the
verdict, increments the accept counter and raises the pin if `bit0`, else
increments the reject counter and lowers the pin, and writes the
`<stem>_<ACCEPT|REJECT>.txt` result file; on a raised exception, shows
`Error: ...` and lowers the pin.  The `finally` clause clears `analyzing`. -/
def analyzePost (st : UiState) (imgName : String) (cres : Except PyErr String) : UiState :=
  match cres with
  | .ok verdict =>
      let bit0 := pyStartswith (pyUpper verdict) "ACCEPT"
      let bit1 := pyStartswith (pyUpper verdict) "REJECT"
      let st1 := { st with modbus := (bit0, bit1),
                           result_fg := if bit0 then "green" else "red",
                           result_text := verdict }
      let st2 :=
        if bit0 then
          { st1 with accept_count := st1.accept_count + 1, accept_output := true }
        else
          { st1 with reject_count := st1.reject_count + 1, accept_output := false }
      let verdict_label := if pyStartswith (pyUpper verdict) "ACCEPT" then "ACCEPT" else "REJECT"
      { st2 with
          results := st2.results ++ [(splitextStem imgName ++ "_" ++ verdict_label ++ ".txt", verdict)],
          analyzing := false }
  | .error e =>
      { st with result_fg := "red", result_text := "Error: " ++ pyErrMsg e,
                accept_output := false, analyzing := false }

/-- The whole of `LidInspectorApp.analyze` on one image. -/
def analyze (st : UiState) (imgName : String) (fileRead : Except String String)
    (api : Nat → Except String String) : UiState :=
  let pre := analyzePre st
  let cres := (classify_image fileRead pre.sensitivity pre.no_brand api).1
  analyzePost pre imgName cres

/-- The `sorted(current - self.seen)` batch of new images computed by
`watch_folder`. -/
def newImages (st : UiState) (dir : List String) : List String :=
  List.insertionSort pyLe ((list_images dir).filter fun f => f ∉ st.seen)

/-- One iteration of `LidInspectorApp.watch_folder`'s `while True` body.  The
listing is an oracle; `os.listdir` is called outside any `try`, so a listing
failure propagates out of the loop (`.error`).  When new images appear they
are appended to `images` in `sorted` order, `idx` is moved to the first new
one, and `seen` is REPLACED by the current listing. -/
def watch_step (st : UiState) (listing : Except String (List String)) :
    Except String UiState :=
  if st.analyzing then .ok st
  else
    match listing with
    | .error e => .error e
    | .ok dir =>
        if (newImages st dir).isEmpty then .ok st
        else .ok { st with images := st.images ++ newImages st dir,
                           idx := st.images.length, seen := list_images dir }

/-- `LidInspectorApp.start_inspection`: loads the current listing as both the
image list and the `seen` set. -/
def start_inspection (st : UiState) (dir : List String) : UiState :=
  { st with images := list_images dir, seen := list_images dir, idx := 0 }

/-- `LidInspectorApp.next_image`. -/
def next_image (st : UiState) : UiState := { st with idx := st.idx + 1 }

/-- The level names of the strictness menu. -/
def level_names : List String := ["Lenient", "Relaxed", "Balanced", "Strict", "Very Strict"]

/-- `LidInspectorApp.on_level_change`. -/
def on_level_change (st : UiState) (choice : String) : UiState :=
  { st with sensitivity := level_names.indexOf choice + 1 }

/-- Toggling the "No Brand/IML Mode" checkbox. -/
def set_no_brand (st : UiState) (b : Bool) : UiState := { st with no_brand := b }

/-- `LidInspectorApp.clear_server`: deletes the folder and result files, empties
`images` and `seen`, zeroes both counters and resets the labels.  It does not
touch the Modbus datastore, the GPIO pin or the `analyzing` flag. -/
def clear_server (st : UiState) : UiState :=
  { st with images := [], seen := [], idx := 0,
            result_text := "Server cleared - folder is now empty.", result_fg := "black",
            accept_count := 0, reject_count := 0, results := [] }

/-- States of the application reachable from construction through its
operations, including the instant between the two halves of `analyze` (the
in-flight classification window). -/
inductive Reachable : UiState → Prop where
  | init : Reachable initState
  | start (dir : List String) {s : UiState} :
      Reachable s → Reachable (start_inspection s dir)
  | watch (listing : Except String (List String)) {s s' : UiState} :
      Reachable s → watch_step s listing = .ok s' → Reachable s'
  | pre {s : UiState} : Reachable s → Reachable (analyzePre s)
  | post (img : String) (r : Except PyErr String) {s : UiState} :
      Reachable s → Reachable (analyzePost s img r)
  | next {s : UiState} : Reachable s → Reachable (next_image s)
  | level (choice : String) {s : UiState} :
      Reachable s → Reachable (on_level_change s choice)
  | nobrand (b : Bool) {s : UiState} : Reachable s → Reachable (set_no_brand s b)
  | clear {s : UiState} : Reachable s → Reachable (clear_server s)

end WatcherUi

/-- Numeric key of a filename: its `splitext` stem parsed as a decimal
integer, when the stem is all digits. -/
def numKey (n : String) : Option Nat :=
  let ds := (splitextStem n).data
  if ds ≠ [] ∧ ds.all Char.isDigit then
    some (ds.foldl (fun acc c => acc * 10 + (c.toNat - 48)) 0)
  else none

/-- Ascending numeric-key comparison between numeric-keyed filenames. -/
def numKeyLe (a b : String) : Prop := (numKey a).getD 0 ≤ (numKey b).getD 0

instance : DecidableRel numKeyLe := fun _ _ => Nat.decLe _ _

/-- Following the Sequencer contract words of the spec, for comparison with
the implemented ordering: ascending numeric key when the filename stem parses
as an integer, numeric-keyed names before non-numeric ones of the same batch,
the rest lexicographic. -/
def sequencerSpecOrder (names : List String) : List String :=
  List.insertionSort numKeyLe (names.filter fun n => (numKey n).isSome) ++
    List.insertionSort pyLe (names.filter fun n => (numKey n).isNone)

/-- C3 counterexample: the implemented ordering is plain lexicographic string
order, not ascending numeric key — on the batch `["10.jpg", "2.jpg"]` the code
processes `10.jpg` before `2.jpg`, while the claimed numeric order is the
reverse. -/
theorem ordering_not_numeric_cex :
    WatcherPi.list_images ["10.jpg", "2.jpg"] = ["10.jpg", "2.jpg"] ∧
    sequencerSpecOrder ["10.jpg", "2.jpg"] = ["2.jpg", "10.jpg"] ∧
    WatcherPi.list_images ["10.jpg", "2.jpg"] ≠ sequencerSpecOrder ["10.jpg", "2.jpg"] := by
  refine ⟨by decide, by decide, by decide⟩

/-- C3 (amended): both watchers order each scan batch by plain lexicographic
(code-point) string order — a deterministic total order under which the
spec's example `"3.jpg", "1.jpg", "2.jpg"` is indeed processed as `1, 2, 3`,
but numeric stems are NOT compared as integers (`"10.jpg"` sorts before
`"2.jpg"`): the result is the sorted permutation of the extension-filtered
listing. -/
theorem processing_order_lexicographic :
    WatcherPi.list_images ["3.jpg", "1.jpg", "2.jpg"] = ["1.jpg", "2.jpg", "3.jpg"] ∧
    WatcherUi.list_images ["3.jpg", "1.jpg", "2.jpg"] = ["1.jpg", "2.jpg", "3.jpg"] ∧
    (∀ d, (WatcherPi.list_images d).Sorted pyLe) ∧
    (∀ d, (WatcherPi.list_images d).Perm
      (d.filter fun f => pyEndswith (pyLower f) ".jpg" || pyEndswith (pyLower f) ".jpeg")) ∧
    (∀ d, (WatcherUi.list_images d).Sorted pyLe) ∧
    (∀ d, (WatcherUi.list_images d).Perm
      (d.filter fun f => pyEndswith (pyLower f) ".jpg" || pyEndswith (pyLower f) ".jpeg" ||
        pyEndswith (pyLower f) ".png")) := by
  refine ⟨by decide, by decide, ?_, ?_, ?_, ?_⟩
  · intro d; exact List.sorted_insertionSort pyLe _
  · intro d; exact List.perm_insertionSort pyLe _
  · intro d; exact List.sorted_insertionSort pyLe _
  · intro d; exact List.perm_insertionSort pyLe _

/-- C4: calling `watcher_ui.classify_image` with `no_brand_mode = True` on a
readable image reaches the `messages = [{"role": "system", "content":
system_prompt}]` line with the local `system_prompt` unassigned (it is
assigned only in the `no_brand_mode = False` branch), so an
`UnboundLocalError` is raised with zero chat-completion calls made: no
inspection in no-brand mode can return a verdict. -/
theorem no_brand_mode_unbound_local (data : String) (sensitivity : Nat)
    (api : Nat → Except String String) :
    WatcherUi.classify_image (.ok data) sensitivity true api =
      (.error (.unboundLocal "system_prompt"), 0) := by
  simp [WatcherUi.classify_image]

/-- C8 counterexample: a directory-listing failure is NOT caught by either
watch loop — `watcher_ui.watch_folder` has no `try` at all and
`watcher_pi.main` lists the directory outside its `try` — so the exception
escapes the loop instead of being logged and retried. -/
theorem listing_error_escapes_cex :
    WatcherUi.watch_step WatcherUi.initState (.error "OSError: listing failed") =
      .error "OSError: listing failed" ∧
    WatcherPi.main_cycle [] (.error "OSError: listing failed") (fun _ => .ok "ACCEPT - ok") =
      .error "OSError: listing failed" := by
  exact ⟨rfl, rfl⟩

/-- C8 (amended): an I/O error raised while listing the watched directory
propagates uncaught out of the scan cycle of both watch loops (it is fatal to
the watching thread, not logged and retried); only the per-image
classification call in `watcher_pi.main` is guarded, so a cycle whose listing
succeeds always completes. -/
theorem listing_error_propagates (st : WatcherUi.UiState) (e : String)
    (h : st.analyzing = false) :
    WatcherUi.watch_step st (.error e) = .error e ∧
    (∀ p c, WatcherPi.main_cycle p (.error e) c = .error e) ∧
    (∀ p dir c, ∃ out, WatcherPi.main_cycle p (.ok dir) c = .ok out) := by
  refine ⟨?_, fun p c => rfl, fun p dir c => ⟨_, rfl⟩⟩
  simp [WatcherUi.watch_step, h]

/-- C8 witness. -/
theorem listing_error_propagates_witness :
    WatcherUi.watch_step WatcherUi.initState (.error "OSError") = .error "OSError" :=
  (listing_error_propagates WatcherUi.initState "OSError" rfl).1

/-- C9 counterexample: the check does not sample-sleep-resample with the
settle interval between the samples; it sleeps the settle interval BEFORE the
first sample and a fixed 0.5 s between the two size samples.  With settle
interval 2 the executed trace is `sleep 2, getsize, sleep 0.5, getsize,
getmtime`, which differs from the claimed `getsize, sleep 2, getsize`
procedure. -/
theorem stability_sleep_order_cex :
    (WatcherUi.is_file_stable (some 100) (some 100) (some 0) 10 2).2 =
      [.sleep 2, .getsize, .sleep (1/2), .getsize, .getmtime] ∧
    (WatcherUi.is_file_stable (some 100) (some 100) (some 0) 10 2).2 ≠
      [.getsize, .sleep 2, .getsize, .getmtime] := by
  constructor
  · rfl
  · intro h
    simp [WatcherUi.is_file_stable] at h

/-- C9 (amended): `is_file_stable` sleeps the settle interval, samples the
size, sleeps a fixed 0.5 s, re-samples the size and mtime; it returns true
exactly when both size samples exist and agree and the mtime is older than
the settle interval, and returns false — rather than raising — whenever the
file disappears mid-check. -/
theorem is_file_stable_spec (s1 s2 : Option Nat) (mt : Option ℚ) (now wait : ℚ) :
    ((WatcherUi.is_file_stable s1 s2 mt now wait).1 = true ↔
      ∃ a b m, s1 = some a ∧ s2 = some b ∧ mt = some m ∧ a = b ∧ now - m > wait) ∧
    (s1 = none ∨ s2 = none ∨ mt = none →
      (WatcherUi.is_file_stable s1 s2 mt now wait).1 = false) ∧
    ((WatcherUi.is_file_stable s1 s2 mt now wait).2.head? = some (.sleep wait)) ∧
    (∀ a b m, s1 = some a → s2 = some b → mt = some m →
      (WatcherUi.is_file_stable s1 s2 mt now wait).2 =
        [.sleep wait, .getsize, .sleep (1/2), .getsize, .getmtime]) := by
  refine ⟨?_, ?_, ?_, ?_⟩
  · cases s1 with
    | none => simp [WatcherUi.is_file_stable]
    | some a =>
      cases s2 with
      | none => simp [WatcherUi.is_file_stable]
      | some b =>
        cases mt with
        | none => simp [WatcherUi.is_file_stable]
        | some m =>
          simp only [WatcherUi.is_file_stable, Bool.and_eq_true, decide_eq_true_eq]
          constructor
          · intro h
            exact ⟨a, b, m, rfl, rfl, rfl, h.1, h.2⟩
          · rintro ⟨a', b', m', ha, hb, hm, hab, hgt⟩
            injection ha with ha
            injection hb with hb
            injection hm with hm
            subst ha; subst hb; subst hm
            exact ⟨hab, hgt⟩
  · intro h
    cases s1 <;> cases s2 <;> cases mt <;> simp_all [WatcherUi.is_file_stable]
  · cases s1 <;> cases s2 <;> cases mt <;> simp [WatcherUi.is_file_stable]
  · intro a b m h1 h2 h3
    subst h1; subst h2; subst h3
    rfl

/-- C9 witness. -/
theorem is_file_stable_spec_witness :
    (WatcherUi.is_file_stable (some 5) (some 5) (some 0) 10 2).2 =
      [.sleep 2, .getsize, .sleep (1/2), .getsize, .getmtime] :=
  (is_file_stable_spec (some 5) (some 5) (some 0) 10 2).2.2.2 5 5 0 rfl rfl rfl

/-- C1 counterexample: a classifier reply beginning with neither `ACCEPT` nor
`REJECT` is not treated as a Failed/ERROR outcome — `analyze` falls into the
`else` branch, incrementing the rejected counter and recording a `REJECT`
result file for it. -/
theorem nonconforming_reply_counted_cex :
    (WatcherUi.analyze WatcherUi.initState "7.jpg" (.ok "imgbytes")
        (fun _ => .ok "UNCLEAR - cannot determine")).reject_count = 1 ∧
    (WatcherUi.analyze WatcherUi.initState "7.jpg" (.ok "imgbytes")
        (fun _ => .ok "UNCLEAR - cannot determine")).results =
      [("7_REJECT.txt", "UNCLEAR - cannot determine")] := by
  exact ⟨by decide, by decide⟩

/-- C1 (amended): a classifier reply beginning (case-insensitively) with
neither `ACCEPT` nor `REJECT` asserts no Modbus bit and leaves the GPIO pin
low, but it is NOT handled as a no-verdict failure: the rejected counter is
incremented, the accepted counter is unchanged, and a `<stem>_REJECT.txt`
record of the reply is written. -/
theorem nonconforming_reply_treated_as_reject (st : WatcherUi.UiState) (img v : String)
    (hA : pyStartswith (pyUpper v) "ACCEPT" = false)
    (hR : pyStartswith (pyUpper v) "REJECT" = false) :
    (WatcherUi.analyzePost st img (.ok v)).modbus = (false, false) ∧
    (WatcherUi.analyzePost st img (.ok v)).accept_output = false ∧
    (WatcherUi.analyzePost st img (.ok v)).accept_count = st.accept_count ∧
    (WatcherUi.analyzePost st img (.ok v)).reject_count = st.reject_count + 1 ∧
    (WatcherUi.analyzePost st img (.ok v)).results =
      st.results ++ [(splitextStem img ++ "_" ++ "REJECT" ++ ".txt", v)] := by
  simp [WatcherUi.analyzePost, hA, hR]

/-- C1 witness. -/
theorem nonconforming_reply_treated_as_reject_witness :
    (WatcherUi.analyzePost WatcherUi.initState "7.jpg" (.ok "UNCLEAR - no verdict")).reject_count =
      WatcherUi.initState.reject_count + 1 :=
  (nonconforming_reply_treated_as_reject WatcherUi.initState "7.jpg" "UNCLEAR - no verdict"
    (by decide) (by decide)).2.2.2.1

/-- C2 counterexample: there is no retry logic — with a classifier that fails
transiently on its first two calls and would succeed on the third, the code
makes exactly one call, the record ends in the error path, and neither
counter is incremented (the claim predicts one Decided record and one
increment after three attempts). -/
theorem no_retry_cex :
    (WatcherUi.classify_image (.ok "imgbytes") 3 false
        (fun n => if n < 2 then .error "RateLimitError" else .ok "ACCEPT - clean (Confidence: 95)")).2
      = 1 ∧
    (WatcherUi.classify_image (.ok "imgbytes") 3 false
        (fun n => if n < 2 then .error "RateLimitError" else .ok "ACCEPT - clean (Confidence: 95)")).1
      = Except.error (WatcherUi.PyErr.apiError "RateLimitError") ∧
    (WatcherUi.analyze WatcherUi.initState "1.jpg" (.ok "imgbytes")
        (fun n => if n < 2 then .error "RateLimitError" else .ok "ACCEPT - clean (Confidence: 95)")).accept_count
      = 0 ∧
    (WatcherUi.analyze WatcherUi.initState "1.jpg" (.ok "imgbytes")
        (fun n => if n < 2 then .error "RateLimitError" else .ok "ACCEPT - clean (Confidence: 95)")).reject_count
      = 0 := by
  refine ⟨by decide, rfl, by decide, by decide⟩

/-- C2 (amended): both `classify_image` functions contact the classifier at
most once per processed item — there is no retry, no backoff and no attempt
ceiling of 3 — and when the single call fails transiently the record ends in
the error path with no counter increment. -/
theorem classify_image_single_attempt (api : Nat → Except String String) (e : String)
    (h : api 0 = Except.error e) :
    (∀ fr s nb, (WatcherUi.classify_image fr s nb api).2 ≤ 1) ∧
    (∀ fr, (WatcherPi.classify_image fr api).2 ≤ 1) ∧
    (∀ data s, WatcherUi.classify_image (.ok data) s false api =
      (.error (.apiError e), 1)) ∧
    (∀ st img data,
      (WatcherUi.analyze st img (.ok data) api).accept_count = st.accept_count ∧
      (WatcherUi.analyze st img (.ok data) api).reject_count = st.reject_count) := by
  refine ⟨?_, ?_, ?_, ?_⟩
  · intro fr s nb
    cases fr with
    | error e' => simp [WatcherUi.classify_image]
    | ok data =>
      cases nb with
      | true => simp [WatcherUi.classify_image]
      | false =>
        cases h0 : api 0 with
        | error e' => simp [WatcherUi.classify_image, h0]
        | ok r => simp [WatcherUi.classify_image, h0]
  · intro fr
    cases fr with
    | error e' => simp [WatcherPi.classify_image]
    | ok data =>
      cases h0 : api 0 with
      | error e' => simp [WatcherPi.classify_image, h0]
      | ok r => simp [WatcherPi.classify_image, h0]
  · intro data s
    simp [WatcherUi.classify_image, h]
  · intro st img data
    cases hb : st.no_brand with
    | true =>
      simp [WatcherUi.analyze, WatcherUi.analyzePre, WatcherUi.analyzePost,
        WatcherUi.classify_image, hb]
    | false =>
      simp [WatcherUi.analyze, WatcherUi.analyzePre, WatcherUi.analyzePost,
        WatcherUi.classify_image, hb, h]

/-- C2 witness. -/
theorem classify_image_single_attempt_witness :
    WatcherUi.classify_image (.ok "imgbytes") 3 false (fun _ => .error "rate limited") =
      (.error (.apiError "rate limited"), 1) :=
  (classify_image_single_attempt (fun _ => .error "rate limited") "rate limited" rfl).2.2.1
    "imgbytes" 3

/-- An `(a :: as)`-prefix check against a list with a different head is
false. -/
theorem isPrefixOf_cons_ne (a b : Char) (as bs : List Char) (h : (a == b) = false) :
    (a :: as).isPrefixOf (b :: bs) = false := by
  simp [List.isPrefixOf, h]

/-- The `"Error: Unable to read image: ..."` string returned when the file
read fails starts with neither `ACCEPT` nor `REJECT` after upper-casing. -/
theorem error_verdict_bits (e : String) :
    pyStartswith (pyUpper ("Error: Unable to read image: " ++ e)) "ACCEPT" = false ∧
    pyStartswith (pyUpper ("Error: Unable to read image: " ++ e)) "REJECT" = false := by
  have hdata : (pyUpper ("Error: Unable to read image: " ++ e)).data =
      'E' :: ("RROR: UNABLE TO READ IMAGE: ".data ++ e.data.map Char.toUpper) := by
    simp only [pyUpper, String.data_append, List.map_append]
    rw [show "Error: Unable to read image: ".data.map Char.toUpper =
      'E' :: "RROR: UNABLE TO READ IMAGE: ".data by decide]
    rfl
  constructor
  · show ("ACCEPT".data.isPrefixOf (pyUpper ("Error: Unable to read image: " ++ e)).data) = false
    rw [hdata]
    exact isPrefixOf_cons_ne 'A' 'E' _ _ (by decide)
  · show ("REJECT".data.isPrefixOf (pyUpper ("Error: Unable to read image: " ++ e)).data) = false
    rw [hdata]
    exact isPrefixOf_cons_ne 'R' 'E' _ _ (by decide)

/-- C7 counterexample: a preprocessing failure (unreadable image) does NOT
leave the counters untouched — `classify_image` catches the read exception
and RETURNS the `"Error: ..."` text, which `analyze` then counts as a
Reject, incrementing the rejected counter and writing a `REJECT` record. -/
theorem preprocessing_failure_counted_cex :
    (WatcherUi.analyze WatcherUi.initState "1.jpg" (.error "No such file or directory")
        (fun _ => .ok "ACCEPT - unused")).reject_count = 1 ∧
    (WatcherUi.analyze WatcherUi.initState "1.jpg" (.error "No such file or directory")
        (fun _ => .ok "ACCEPT - unused")).result_text =
      "Error: Unable to read image: No such file or directory" := by
  exact ⟨by decide, by decide⟩

/-- C7 (amended): a failure that RAISES through the classification call
surfaces its reason on the result label with no signal asserted and no
counter change; but a preprocessing failure (unreadable image) is returned
as an `"Error: ..."` string and counted as a Reject — the rejected counter
is incremented and a `REJECT` record written, though no signal bit is
asserted there either. -/
theorem failure_paths (st : WatcherUi.UiState) (img e : String) (pe : WatcherUi.PyErr)
    (api : Nat → Except String String) :
    ((WatcherUi.analyzePost st img (.error pe)).accept_count = st.accept_count ∧
     (WatcherUi.analyzePost st img (.error pe)).reject_count = st.reject_count ∧
     (WatcherUi.analyzePost st img (.error pe)).accept_output = false ∧
     (WatcherUi.analyzePost st img (.error pe)).modbus = st.modbus ∧
     (WatcherUi.analyzePost st img (.error pe)).results = st.results ∧
     (WatcherUi.analyzePost st img (.error pe)).result_text =
       "Error: " ++ WatcherUi.pyErrMsg pe) ∧
    ((WatcherUi.analyze st img (.error e) api).reject_count = st.reject_count + 1 ∧
     (WatcherUi.analyze st img (.error e) api).accept_count = st.accept_count ∧
     (WatcherUi.analyze st img (.error e) api).modbus = (false, false) ∧
     (WatcherUi.analyze st img (.error e) api).accept_output = false ∧
     (WatcherUi.analyze st img (.error e) api).result_text =
       "Error: Unable to read image: " ++ e) := by
  obtain ⟨hA, hR⟩ := error_verdict_bits e
  constructor
  · simp [WatcherUi.analyzePost]
  · simp [WatcherUi.analyze, WatcherUi.analyzePre, WatcherUi.analyzePost,
      WatcherUi.classify_image, hA, hR]

/-- C5 counterexample: `clear_server` does not deassert the signal lines and
does not invalidate an in-flight analysis.  After an accepted lid the GPIO
pin is high and stays high across the clear; and a verdict that lands after
the clear still increments the accepted counter, so the counters do not
settle at zero regardless of the in-flight outcome. -/
theorem clear_ignores_signals_cex :
    (WatcherUi.analyze WatcherUi.initState "1.jpg" (.ok "imgbytes")
        (fun _ => .ok "ACCEPT - clean lid (Confidence: 95)")).accept_output = true ∧
    (WatcherUi.clear_server (WatcherUi.analyze WatcherUi.initState "1.jpg" (.ok "imgbytes")
        (fun _ => .ok "ACCEPT - clean lid (Confidence: 95)"))).accept_output = true ∧
    (WatcherUi.analyzePost
        (WatcherUi.clear_server (WatcherUi.analyzePre WatcherUi.initState)) "2.jpg"
        (.ok "ACCEPT - clean lid (Confidence: 95)")).accept_count = 1 := by
  refine ⟨by decide, by decide, by decide⟩

/-- C5 (amended): `clear_server` zeroes both counters, empties the image list
and the seen set, resets the index and the labels, and deletes the recorded
result files — but it leaves the GPIO pin, the Modbus bits and the
`analyzing` flag exactly as they were, and a record still in flight is not
invalidated: its verdict, arriving after the clear, still updates counters
and signals (an accepted verdict leaves the accepted counter at 1, not 0). -/
theorem clear_server_spec (st : WatcherUi.UiState) :
    (WatcherUi.clear_server st).accept_count = 0 ∧
    (WatcherUi.clear_server st).reject_count = 0 ∧
    (WatcherUi.clear_server st).images = [] ∧
    (WatcherUi.clear_server st).seen = [] ∧
    (WatcherUi.clear_server st).idx = 0 ∧
    (WatcherUi.clear_server st).results = [] ∧
    (WatcherUi.clear_server st).accept_output = st.accept_output ∧
    (WatcherUi.clear_server st).modbus = st.modbus ∧
    (WatcherUi.clear_server st).analyzing = st.analyzing ∧
    (∀ img v, pyStartswith (pyUpper v) "ACCEPT" = true →
      (WatcherUi.analyzePost (WatcherUi.clear_server st) img (.ok v)).accept_count = 1) := by
  refine ⟨rfl, rfl, rfl, rfl, rfl, rfl, rfl, rfl, rfl, ?_⟩
  intro img v hv
  simp [WatcherUi.analyzePost, WatcherUi.clear_server, hv]

/-- C5 witness. -/
theorem clear_server_spec_witness :
    (WatcherUi.analyzePost (WatcherUi.clear_server WatcherUi.initState) "1.jpg"
        (.ok "ACCEPT - ok")).accept_count = 1 :=
  (clear_server_spec WatcherUi.initState).2.2.2.2.2.2.2.2.2 "1.jpg" "ACCEPT - ok" (by decide)

/-- No string upper-cases to something starting with both `ACCEPT` and
`REJECT`: the two prefixes disagree at their first character. -/
theorem accept_reject_exclusive (v : String) :
    ¬(pyStartswith v "ACCEPT" = true ∧ pyStartswith v "REJECT" = true) := by
  rintro ⟨h1, h2⟩
  simp only [pyStartswith, List.isPrefixOf_iff_prefix] at h1 h2
  rcases List.prefix_or_prefix_of_prefix h1 h2 with h | h
  · exact absurd h (by decide)
  · exact absurd h (by decide)

/-- The Modbus pair written by the success branch of `analyze`. -/
theorem analyzePost_modbus_ok (st : WatcherUi.UiState) (img v : String) :
    (WatcherUi.analyzePost st img (.ok v)).modbus =
      (pyStartswith (pyUpper v) "ACCEPT", pyStartswith (pyUpper v) "REJECT") := by
  cases h : pyStartswith (pyUpper v) "ACCEPT" <;> simp [WatcherUi.analyzePost, h]

/-- A successful `watch_folder` iteration never changes the Modbus pair. -/
theorem watch_step_modbus {st st' : WatcherUi.UiState} {l : Except String (List String)}
    (h : WatcherUi.watch_step st l = .ok st') :
    st'.modbus = st.modbus := by
  unfold WatcherUi.watch_step at h
  split at h
  · injection h with h
    subst h
    rfl
  · split at h
    · exact absurd h (by simp)
    · split at h
      · injection h with h
        subst h
        rfl
      · injection h with h
        subst h
        rfl

/-- At every reachable state, the accept and reject Modbus bits are not both
set. -/
theorem reachable_modbus_exclusive {s : WatcherUi.UiState} (h : WatcherUi.Reachable s) :
    ¬(s.modbus.1 = true ∧ s.modbus.2 = true) := by
  induction h with
  | init => simp [WatcherUi.initState]
  | start dir hr ih => exact ih
  | watch listing hr hstep ih =>
    rw [watch_step_modbus hstep]
    exact ih
  | pre hr ih => simp [WatcherUi.analyzePre]
  | post img r hr ih =>
    cases r with
    | error e => exact ih
    | ok v =>
      rw [analyzePost_modbus_ok]
      exact fun hc => accept_reject_exclusive (pyUpper v) hc
  | next hr ih => exact ih
  | level choice hr ih => exact ih
  | nobrand b hr ih => exact ih
  | clear hr ih => exact ih

/-- C6: in every state the application can reach — including the instant
between the pre-classification reset and the verdict write — the accept and
reject Modbus bits are never both asserted, and at the start of each
`analyze` call both bits are written to 0 and the GPIO pin driven low before
the classifier is invoked. -/
theorem signals_never_both_asserted (s : WatcherUi.UiState) (h : WatcherUi.Reachable s) :
    ¬(s.modbus.1 = true ∧ s.modbus.2 = true) ∧
    (WatcherUi.analyzePre s).modbus = (false, false) ∧
    (WatcherUi.analyzePre s).accept_output = false :=
  ⟨reachable_modbus_exclusive h, rfl, rfl⟩

/-- C6 witness. -/
theorem signals_never_both_asserted_witness :
    ¬((WatcherUi.analyzePre WatcherUi.initState).modbus.1 = true ∧
        (WatcherUi.analyzePre WatcherUi.initState).modbus.2 = true) ∧
    (WatcherUi.analyzePre (WatcherUi.analyzePre WatcherUi.initState)).modbus = (false, false) ∧
    (WatcherUi.analyzePre (WatcherUi.analyzePre WatcherUi.initState)).accept_output = false :=
  signals_never_both_asserted (WatcherUi.analyzePre WatcherUi.initState)
    (WatcherUi.Reachable.pre WatcherUi.Reachable.init)

/-- Run one `watch_folder` iteration whose listing succeeded. -/
def watchOk (st : WatcherUi.UiState) (listing : List String) : WatcherUi.UiState :=
  match WatcherUi.watch_step st (.ok listing) with
  | .ok s => s
  | .error _ => st

/-- C10 counterexample: in `watcher_ui`, `seen` is REPLACED by the current
listing whenever new files appear, so a filename that is deleted externally
and later re-added re-enters the batch: after scans seeing `a.jpg`, then only
`b.jpg`, then both, `a.jpg` is appended to the processing list a second time
within the same session. -/
theorem seen_set_reentry_cex :
    (watchOk (watchOk (watchOk (WatcherUi.start_inspection WatcherUi.initState [])
        ["a.jpg"]) ["b.jpg"]) ["a.jpg", "b.jpg"]).images =
      ["a.jpg", "b.jpg", "a.jpg"] ∧
    ((watchOk (watchOk (watchOk (WatcherUi.start_inspection WatcherUi.initState [])
        ["a.jpg"]) ["b.jpg"]) ["a.jpg", "b.jpg"]).images.count "a.jpg") = 2 := by
  refine ⟨by decide, by decide⟩

/-- Once a name is in `processed`, `watcher_pi.main` never classifies it again
and never removes it. -/
theorem main_loop_skips (imgs : List String) :
    ∀ processed classify img, img ∈ processed →
      img ∉ (WatcherPi.main_loop imgs processed classify).1.map Prod.fst ∧
      img ∈ (WatcherPi.main_loop imgs processed classify).2 := by
  induction imgs with
  | nil =>
    intro processed classify img h
    exact ⟨by simp [WatcherPi.main_loop], by simpa [WatcherPi.main_loop] using h⟩
  | cons i rest ih =>
    intro processed classify img h
    by_cases hi : i ∈ processed
    · simpa [WatcherPi.main_loop, hi] using ih processed classify img h
    · have h' : img ∈ processed ++ [i] := by simp [h]
      obtain ⟨ih1, ih2⟩ := ih (processed ++ [i]) classify img h'
      have hne : img ≠ i := fun he => hi (he ▸ h)
      refine ⟨?_, ?_⟩
      · simp only [WatcherPi.main_loop, hi, if_false, List.map_cons, List.mem_cons]
        rintro (hc | hc)
        · exact hne hc
        · exact ih1 hc
      · simpa [WatcherPi.main_loop, hi] using ih2

/-- C10 (amended): within one session, `watcher_pi`'s processed set is sound —
a name in the set is never classified again and stays in the set — and in
`watcher_ui` a name currently in `seen` is skipped by a scan cycle; but the
at-most-once guarantee holds only while the name stays listed, because
`watch_folder` replaces `seen` with the current listing (see the
counterexample for a deleted-and-restored file being processed twice). -/
theorem processed_set_invariants (processed imgs : List String)
    (classify : String → Except String String) (img : String)
    (h : img ∈ processed) :
    img ∉ (WatcherPi.main_loop imgs processed classify).1.map Prod.fst ∧
    img ∈ (WatcherPi.main_loop imgs processed classify).2 ∧
    (∀ st listing st', WatcherUi.watch_step st (.ok listing) = .ok st' →
      img ∈ st.seen → st'.images.count img = st.images.count img) := by
  obtain ⟨h1, h2⟩ := main_loop_skips imgs processed classify img h
  refine ⟨h1, h2, ?_⟩
  intro st listing st' hstep hseen
  unfold WatcherUi.watch_step at hstep
  split at hstep
  · injection hstep with hstep
    subst hstep
    rfl
  · split at hstep
    · exact absurd hstep (by simp)
    · split at hstep
      · injection hstep with hstep
        subst hstep
        rfl
      · rename_i dir heq hE
        injection hstep with hstep
        subst hstep
        have hcount : (WatcherUi.newImages st dir).count img = 0 := by
          unfold WatcherUi.newImages
          rw [(List.perm_insertionSort pyLe _).count_eq]
          rw [List.count_eq_zero]
          intro hmem
          have hf := List.of_mem_filter hmem
          simp only [decide_eq_true_eq] at hf
          exact hf hseen
        simp only [List.count_append, hcount, Nat.add_zero]

/-- C10 witness. -/
theorem processed_set_invariants_witness :
    "a.jpg" ∉ (WatcherPi.main_loop ["a.jpg", "b.jpg"] ["a.jpg"]
        (fun _ => Except.ok "ACCEPT - ok")).1.map Prod.fst :=
  (processed_set_invariants ["a.jpg"] ["a.jpg", "b.jpg"]
    (fun _ => Except.ok "ACCEPT - ok") "a.jpg" (by decide)).1
